import Mathlib

/-!
Verification development for the Silent Lease client-side logic
(auth + per-user app-state store backed by browser localStorage).

The JavaScript source is embedded shallowly:
  * JSON values are the inductive `JVal` (JSON numbers are modelled as
    integers; no code path here does arithmetic on stored numbers).
  * `localStorage` is a `Store`: a string-keyed map of cells plus a flag
    saying whether `setItem` succeeds (`canWrite = false` models quota
    exhaustion, where `setItem` throws).
  * A stored string is a `Cell`: either the `JSON.stringify` serialization
    of a value (identified with the value it parses back to — stringify
    followed by parse is the identity on the JSON values this code writes)
    or a string `JSON.parse` rejects.
  * Functions that can throw an uncaught exception return `Option`
    (`none` = the exception escapes); functions wrapped in try/catch are
    total, with the catch branch translated explicitly.
-/

namespace SilentLease

/-- JSON values as they appear in localStorage cells and in the scripts'
object literals. -/
inductive JVal where
  | jnull
  | jbool (b : Bool)
  | jnum (n : Int)
  | jstr (s : String)
  | jobj (fields : List (String × JVal))

/-- JavaScript truthiness of a value (`!!v`). -/
def JVal.truthy : JVal → Bool
  | .jnull => false
  | .jbool b => b
  | .jnum n => n != 0
  | .jstr s => s != ""
  | .jobj _ => true

/-- Truthiness of a possibly-absent value (`undefined` is falsy). -/
def truthyO : Option JVal → Bool
  | none => false
  | some v => v.truthy

/-- Last-match lookup in an object's field list.  A JavaScript object keeps
one binding per key and building a literal left to right makes the last
write win, so on lists with duplicate keys the last entry is the object's
value. -/
def lastMatch (k : String) : List (String × JVal) → Option JVal
  | [] => none
  | (k2, v) :: rest =>
      match lastMatch k rest with
      | some r => some r
      | none => if k2 = k then some v else none

/-- Indexed character access on a string primitive (`s["0"]` etc.):
defined exactly for canonical numeric indices below the length. -/
def stringIndex (s k : String) : Option JVal :=
  match k.toNat? with
  | some n => if toString n = k && n < s.length
              then some (.jstr (String.mk [s.toList.getD n ' ']))
              else none
  | none => none

/-- Property read `v[k]` on a non-null value: fields of objects, indexed
characters of strings, `undefined` (`none`) on other primitives.
Reads on `null` throw and are handled at each call site. -/
def JVal.get? : JVal → String → Option JVal
  | .jobj fs, k => lastMatch k fs
  | .jstr s, k => stringIndex s k
  | _, _ => none

/-- Property read `v[k]` including the throwing case: the outer `none`
models the TypeError thrown by a read on `null`; the inner `Option` is
`undefined` versus a value. -/
def jsIndex : JVal → String → Option (Option JVal)
  | .jnull, _ => none
  | v, k => some (v.get? k)

/-- Whether a value is an object (`typeof v === 'object' && v !== null`,
for the arrayless value space modelled here). -/
def JVal.isObj : JVal → Bool
  | .jobj _ => true
  | _ => false

/-- Property assignment `v[k] = x` in sloppy mode: updates an object,
silently a no-op on non-null primitives (the scripts are classic scripts,
not modules, so they run in sloppy mode). -/
def jsSet (v : JVal) (k : String) (x : JVal) : JVal :=
  match v with
  | .jobj fs =>
      if fs.any (fun p => p.1 == k)
      then .jobj (fs.map (fun p => if p.1 = k then (p.1, x) else p))
      else .jobj (fs ++ [(k, x)])
  | other => other

/-- Property deletion `delete v[k]`. -/
def jsDelete (v : JVal) (k : String) : JVal :=
  match v with
  | .jobj fs => .jobj (fs.filter (fun p => p.1 != k))
  | other => other

/-- Own enumerable properties, as object spread `{...v}` copies them:
objects give their fields, strings their indexed characters, `null` and
other primitives nothing. -/
def spreadFields : JVal → List (String × JVal)
  | .jobj fs => fs
  | .jstr s => (List.range s.length).map
      (fun i => (toString i, JVal.jstr (String.mk [s.toList.getD i ' '])))
  | _ => []

/-- JavaScript `String(v)` for the value space modelled here. -/
def jsToString : JVal → String
  | .jnull => "null"
  | .jbool b => if b then "true" else "false"
  | .jnum n => toString n
  | .jstr s => s
  | .jobj _ => "[object Object]"

/-- JavaScript `a || b` where the left operand may be an absent property
(absent and falsy both select `b`). -/
def jsOr (a : Option JVal) (b : JVal) : JVal :=
  match a with
  | some v => if v.truthy then v else b
  | none => b

/-- JavaScript `a || b` on strings (empty string is falsy). -/
def jsOrS (a b : String) : String := if a != "" then a else b

/-- Object literal built from possibly-undefined field values, as
`JSON.stringify` serializes it: fields whose value is `undefined` are
dropped. -/
def objOfOpt (l : List (String × Option JVal)) : JVal :=
  .jobj (l.filterMap (fun p => p.2.map (fun v => (p.1, v))))

/-- One localStorage cell: the serialization of a JSON value, or a string
`JSON.parse` rejects. -/
inductive Cell where
  | json (v : JVal)
  | malformed

/-- The browser localStorage: a string-keyed map of cells, plus whether
`setItem` currently succeeds (`false` models quota exhaustion). -/
structure Store where
  data : String → Option Cell
  canWrite : Bool

/-- localStorage.getItem. -/
def Store.getItem (st : Store) (k : String) : Option Cell := st.data k

/-- localStorage.setItem of a stringified value; `none` when the write
throws (quota). -/
def Store.setItem (st : Store) (k : String) (v : JVal) : Option Store :=
  if st.canWrite then
    some { data := fun k2 => if k2 = k then some (Cell.json v) else st.data k2,
           canWrite := st.canWrite }
  else none

/-- Overwrite one key's raw cell (or remove it with `none`); used to build
storage states and to model the session switch performed by login/logout. -/
def Store.setCell (st : Store) (k : String) (c : Option Cell) : Store :=
  { data := fun k2 => if k2 = k then c else st.data k2, canWrite := st.canWrite }

def STORAGE_USERS : String := "silentlease_users"
def STORAGE_CURRENT : String := "silentlease_current"
def STORAGE_QUIZ : String := "silentlease_exitPlanData"
def STORAGE_TASKS : String := "silentlease_tasks"
def STORAGE_APP_STATE : String := "silentlease_appState"

/-- Characters the suffix sanitization keeps: the regex class
`[a-zA-Z0-9@._-]`. -/
def allowedSuffixChar (c : Char) : Bool :=
  c.isAlpha || c.isDigit || c == '@' || c == '.' || c == '_' || c == '-'

/-- `email.replace(/[^a-zA-Z0-9@._-]/g, '_')`. -/
def sanitizeEmail (s : String) : String :=
  String.mk (s.toList.map (fun c => if allowedSuffixChar c then c else '_'))

/-- getStorageSuffix: per-user storage suffix derived from the current
session record.  The try/catch catches exactly the `JSON.parse` failure
(the null check `user && ...` guards the member reads). -/
def getStorageSuffix (st : Store) : String :=
  match st.getItem STORAGE_CURRENT with
  | some Cell.malformed => ""
  | c =>
      let user : JVal := match c with | some (Cell.json j) => j | _ => JVal.jnull
      if user.truthy && truthyO (user.get? "isLoggedIn") && truthyO (user.get? "email")
      then "_" ++ sanitizeEmail (jsToString ((user.get? "email").getD JVal.jnull))
      else ""

/-- getCurrentUser: the stored session record when it carries a truthy
logged-in flag. -/
def getCurrentUser (st : Store) : Option JVal :=
  match st.getItem STORAGE_CURRENT with
  | some Cell.malformed => none
  | c =>
      let user : JVal := match c with | some (Cell.json j) => j | _ => JVal.jnull
      if user.truthy && truthyO (user.get? "isLoggedIn") then some user else none

/-- getUsers: the persisted user directory; `{}` when the cell is absent
or malformed (no type check is made on the parsed value). -/
def getUsers (st : Store) : JVal :=
  match st.getItem STORAGE_USERS with
  | some (Cell.json j) => j
  | _ => JVal.jobj []

/-- getExitPlanData: the standalone per-user quiz record, `null` when
absent or malformed. -/
def getExitPlanData (st : Store) : JVal :=
  match st.getItem (STORAGE_QUIZ ++ getStorageSuffix st) with
  | some (Cell.json j) => j
  | _ => JVal.jnull

/-- getTasks: the standalone per-user task record, `{}` unless the cell
parses to an object. -/
def getTasks (st : Store) : JVal :=
  match st.getItem (STORAGE_TASKS ++ getStorageSuffix st) with
  | some (Cell.json (JVal.jobj fs)) => JVal.jobj fs
  | _ => JVal.jobj []

/-- The state getAppState's catch branch returns. -/
def defaultAppState : JVal :=
  JVal.jobj [("isPlanGenerated", JVal.jbool false),
             ("exitPlanData", JVal.jnull),
             ("completedTasks", JVal.jobj [])]

/-- Body of getAppState as a function of its three storage reads: the raw
combined cell and the two standalone records. -/
def buildAppState (rawCombined : Option Cell) (exitPlan tasks : JVal) : JVal :=
  match rawCombined with
  | some Cell.malformed => defaultAppState
  | some (Cell.json JVal.jnull) => defaultAppState
  | c =>
      let state : JVal := match c with | some (Cell.json j) => j | _ => JVal.jobj []
      JVal.jobj
        ([("isPlanGenerated",
             JVal.jbool (truthyO (state.get? "isPlanGenerated") || exitPlan.truthy)),
          ("exitPlanData", jsOr (state.get? "exitPlanData") (jsOr (some exitPlan) JVal.jnull)),
          ("completedTasks", jsOr (state.get? "completedTasks") (jsOr (some tasks) (JVal.jobj [])))]
         ++ spreadFields state)

/-- getAppState.  The try's two throwing points are the `JSON.parse` of
the combined cell and the member reads on a parsed `null`; both land in
the catch branch (`getExitPlanData`/`getTasks` have their own try/catch
and never throw).  The returned literal ends with `...state`, so the
stored record's own fields stand after — and therefore override — the
three computed fields. -/
def getAppState (st : Store) : JVal :=
  buildAppState (st.getItem (STORAGE_APP_STATE ++ getStorageSuffix st))
    (getExitPlanData st) (getTasks st)

/-- saveAppState: merges `updates` over the current state and persists the
quiz record (when the merged exit-plan is neither null nor absent), the
task record (when the merged task map is an object), and the combined
record.  A throwing `setItem` lands in the catch branch: the function
returns `false`, keeping whatever earlier writes already happened. -/
def saveAppState (updates : JVal) (st : Store) : Bool × Store :=
  let suffix := getStorageSuffix st
  let current := getAppState st
  let next := JVal.jobj (spreadFields current ++ spreadFields updates)
  let step1 : Option Store :=
    match next.get? "exitPlanData" with
    | some JVal.jnull => some st
    | none => some st
    | some v => st.setItem (STORAGE_QUIZ ++ suffix) v
  match step1 with
  | none => (false, st)
  | some st1 =>
      let step2 : Option Store :=
        match next.get? "completedTasks" with
        | some (JVal.jobj fs) => st1.setItem (STORAGE_TASKS ++ suffix) (JVal.jobj fs)
        | _ => some st1
      match step2 with
      | none => (false, st1)
      | some st2 =>
          let combined := objOfOpt
            [("isPlanGenerated", next.get? "isPlanGenerated"),
             ("exitPlanData", next.get? "exitPlanData"),
             ("completedTasks", next.get? "completedTasks")]
          match st2.setItem (STORAGE_APP_STATE ++ suffix) combined with
          | none => (false, st2)
          | some st3 => (true, st3)

/-- JavaScript `\s` for the character range relevant here (the ASCII
whitespace characters; the scripts' inputs are ASCII). -/
def jsWhitespace (c : Char) : Bool :=
  c == ' ' || c == '\t' || c == '\n' || c == '\r' || c == '\x0b' || c == '\x0c'

/-- JavaScript `s.trim()` (over the ASCII whitespace range). -/
def jsTrim (s : String) : String :=
  String.mk (((s.toList.dropWhile jsWhitespace).reverse.dropWhile jsWhitespace).reverse)

/-- JavaScript `s.toLowerCase()` (ASCII range, which covers every input
the scripts construct). -/
def jsToLower (s : String) : String := String.mk (s.toList.map Char.toLower)

/-- isValidEmail: whether the email matches `^[^\s@]+@[^\s@]+\.[^\s@]+$`.
Both character classes exclude `@`, so a match forces exactly one at
sign; the local part is nonempty without whitespace; the domain part is
whitespace-free and contains a dot that is neither its first nor its last
character (the pieces around that dot may themselves contain dots). -/
def isValidEmail (email : String) : Bool :=
  let cs := email.toList
  let l := cs.takeWhile (fun c => c != '@')
  let r := (cs.dropWhile (fun c => c != '@')).drop 1
  (cs.filter (fun c => c == '@')).length == 1 &&
  l != [] && l.all (fun c => !jsWhitespace c) &&
  r.all (fun c => !jsWhitespace c) &&
  ((r.drop 1).dropLast.contains '.')

/-- isValidPassword: truthy and at least 8 characters. -/
def isValidPassword (password : String) : Bool :=
  password != "" && decide (8 ≤ password.toList.length)

def countDigits (s : String) : Nat := (s.toList.filter Char.isDigit).length

/-- isValidPhone: empty (or whitespace-only) phone is valid, otherwise the
digit count of the string must lie in [10, 15]. -/
def isValidPhone (phone : String) : Bool :=
  if jsTrim phone = "" then true
  else decide (10 ≤ countDigits phone) && decide (countDigits phone ≤ 15)

/-- `email.toLowerCase().trim()`, the normalization used for directory
keys. -/
def normalizeEmail (email : String) : String := jsTrim (jsToLower email)

/-- The `{success, error}` result values the auth functions return. -/
inductive JResult where
  | ok
  | err (message : String)

/-- register.  The duplicate check runs before any validation; on success
the record is stored under the normalized key (a no-op when the parsed
directory is not an object — sloppy mode), the directory is saved, and a
session record is written (auto-login).  `now` stands for
`new Date().toISOString()`.  `none` models an uncaught exception: a
directory parsed to `null` (the key read throws) or a throwing
`setItem` (saveUsers and the session write are outside any try/catch). -/
def register (email password name phone address occupation now : String)
    (st : Store) : Option (JResult × Store) :=
  let users := getUsers st
  let key := normalizeEmail email
  match jsIndex users key with
  | none => none
  | some existing =>
    if truthyO existing then
      some (JResult.err "An account with this email already exists.", st)
    else if !isValidEmail email then
      some (JResult.err "Please enter a valid email address.", st)
    else if !isValidPassword password then
      some (JResult.err "Password must be at least 8 characters.", st)
    else if !isValidPhone phone then
      some (JResult.err "Please enter a valid phone number (10–15 digits).", st)
    else
      let record := JVal.jobj
        [("email", JVal.jstr key),
         ("password", JVal.jstr password),
         ("name", JVal.jstr (jsOrS (jsTrim (jsOrS name "User")) "User")),
         ("phone", JVal.jstr (jsTrim phone)),
         ("address", JVal.jstr (jsTrim address)),
         ("occupation", JVal.jstr (jsTrim occupation)),
         ("registeredAt", JVal.jstr now)]
      let users2 := jsSet users key record
      match st.setItem STORAGE_USERS users2 with
      | none => none
      | some st1 =>
        match jsIndex users2 key with
        | none => none
        | some none => none
        | some (some userData) =>
          let sess := objOfOpt
            [("email", some (JVal.jstr key)),
             ("name", userData.get? "name"),
             ("phone", userData.get? "phone"),
             ("address", userData.get? "address"),
             ("occupation", userData.get? "occupation"),
             ("isLoggedIn", some (JVal.jbool true))]
          match st1.setItem STORAGE_CURRENT sess with
          | none => none
          | some st2 => some (JResult.ok, st2)

/-- The update object passed to updateUserProfile: `none` is an absent
property (`!== undefined` checks distinguish absent from empty). -/
structure ProfileUpdates where
  email : Option String := none
  name : Option String := none
  phone : Option String := none
  address : Option String := none
  occupation : Option String := none
  password : Option String := none

/-- Property assignment `user[k] = v` in the profile-update mutation
phase: throws (`none`) on `undefined` or `null`, updates an object,
silently a no-op on other primitives (sloppy mode). -/
def jsAssign (u : Option JVal) (k : String) (v : JVal) : Option (Option JVal) :=
  match u with
  | none => none
  | some JVal.jnull => none
  | some (JVal.jobj fs) => some (some (jsSet (JVal.jobj fs) k v))
  | some prim => some (some prim)

/-- Tail of updateUserProfile after the name mutation and the phone
validation: the remaining mutations (phone was already assigned by the
caller when supplied), then saveUsers and the session rewrite.  `u?`'s
outer `none` is a thrown assignment. -/
def finishProfileUpdate (updates : ProfileUpdates) (st : Store) (users1 : JVal)
    (newEmail : String) (u? : Option (Option JVal)) : Option (JResult × Store) :=
  match u? with
  | none => none
  | some u2 =>
    let afterAddress : Option (Option JVal) :=
      match updates.address with
      | some a => jsAssign u2 "address" (JVal.jstr (jsTrim a))
      | none => some u2
    match afterAddress with
    | none => none
    | some u3 =>
      let afterOccupation : Option (Option JVal) :=
        match updates.occupation with
        | some o => jsAssign u3 "occupation" (JVal.jstr (jsTrim o))
        | none => some u3
      match afterOccupation with
      | none => none
      | some u4 =>
        let afterPassword : Option (Option JVal) :=
          match updates.password with
          | some pw =>
              if pw != "" && decide (8 ≤ pw.length)
              then jsAssign u4 "password" (JVal.jstr pw)
              else some u4
          | none => some u4
        match afterPassword with
        | none => none
        | some u5 =>
          match jsAssign u5 "email" (JVal.jstr newEmail) with
          | none => none
          | some u6 =>
            match u6 with
            | none => none
            | some user2 =>
              let users2 := jsSet users1 newEmail user2
              match st.setItem STORAGE_USERS users2 with
              | none => none
              | some st1 =>
                let sess := objOfOpt
                  [("email", some (JVal.jstr newEmail)),
                   ("name", user2.get? "name"),
                   ("phone", some (jsOr (user2.get? "phone") (JVal.jstr ""))),
                   ("address", some (jsOr (user2.get? "address") (JVal.jstr ""))),
                   ("occupation", some (jsOr (user2.get? "occupation") (JVal.jstr ""))),
                   ("isLoggedIn", some (JVal.jbool true))]
                match st1.setItem STORAGE_CURRENT sess with
                | none => none
                | some st2 => some (JResult.ok, st2)

/-- Middle of updateUserProfile: the `const user = users[newEmail]` read
(throws on a null directory), the name mutation, and the phone validation
with its early error return — the early return happens before any
storage write, so the store is returned untouched. -/
def mutateProfile (updates : ProfileUpdates) (st : Store) (users1 : JVal)
    (newEmail : String) : Option (JResult × Store) :=
  match jsIndex users1 newEmail with
  | none => none
  | some userO =>
    let afterName : Option (Option JVal) :=
      match updates.name with
      | some n => jsAssign userO "name" (JVal.jstr (jsOrS (jsTrim n) "User"))
      | none => some userO
    match afterName with
    | none => none
    | some u1 =>
      match updates.phone with
      | some p =>
          if !isValidPhone p then
            some (JResult.err "Please enter a valid phone number.", st)
          else finishProfileUpdate updates st users1 newEmail
                 (jsAssign u1 "phone" (JVal.jstr (jsTrim p)))
      | none => finishProfileUpdate updates st users1 newEmail (some u1)

/-- updateUserProfile.  Requires a session; when the normalized new email
differs from the current key it is validated, rejected if another record
owns it (both checks return before any write), and otherwise the record
migrates to the new key; then the field mutations, saveUsers and the
session rewrite happen in `mutateProfile`/`finishProfileUpdate`. -/
def updateUserProfile (updates : ProfileUpdates) (st : Store) :
    Option (JResult × Store) :=
  match getCurrentUser st with
  | none => some (JResult.err "Not logged in.", st)
  | some current =>
    match current.get? "email" with
    | some (JVal.jstr curEmail) =>
      let currentKey := normalizeEmail curEmail
      let newEmail := normalizeEmail (match updates.email with
        | some e => jsOrS e curEmail
        | none => curEmail)
      let users := getUsers st
      if newEmail ≠ currentKey then
        if !isValidEmail newEmail then
          some (JResult.err "Please enter a valid email address.", st)
        else
          match jsIndex users newEmail with
          | none => none
          | some got =>
            if truthyO got then
              some (JResult.err "This email is already taken by another account.", st)
            else
              let copied := JVal.jobj (match users.get? currentKey with
                | some v => spreadFields v
                | none => [])
              let users1 := jsDelete (jsSet users newEmail copied) currentKey
              mutateProfile updates st users1 newEmail
      else
        mutateProfile updates st users currentKey
    | _ => none

/-- One dashboard tip, as pushed by getLocalTenantTip. -/
structure TenantTip where
  title : String
  body : String

def tipStudentOttawa : TenantTip :=
  { title := "Tip for students in Ottawa",
    body := "In Ontario, students can assign their lease (sublet) with landlord consent. uOttawa and Carleton offer off-campus housing resources — check your student union for free legal clinics before sending notice." }

def tipStudentOntario : TenantTip :=
  { title := "Tip for students in Ontario",
    body := "Ontario allows lease assignment. If your landlord unreasonably refuses an assignee, you can give 30 days' notice to end the tenancy. Keep all refusals in writing." }

def tipStudentQuebec : TenantTip :=
  { title := "Tip for students in Quebec",
    body := "In Quebec, fixed-term leases often end automatically — check your lease. For month-to-month, you must give 1–2 months' notice. The Régie du logement has guides in English." }

def tipStudentGeneric : TenantTip :=
  { title := "Tip for students",
    body := "Many provinces have special rules for students (e.g. sublets, lease assignment). Check your provincial tenancy board and your school's off-campus housing office for local guidance." }

def tipOttawa : TenantTip :=
  { title := "Tip for tenants in Ottawa",
    body := "Ontario requires 60 days' notice for most terminations. Use our notice letter template and keep proof of delivery (email read receipt or registered mail)." }

def tipOntario : TenantTip :=
  { title := "Tip for Ontario tenants",
    body := "Landlords cannot charge fees for sublets or assignments. If they refuse a reasonable assignee, you may be able to end your tenancy with 30 days' notice." }

/-- Whether `needle` begins the list `hay` (character-wise). -/
def listBeginsWith : List Char → List Char → Bool
  | [], _ => true
  | _ :: _, [] => false
  | a :: as, b :: bs => a == b && listBeginsWith as bs

/-- Whether `needle` occurs in some tail of `hay`. -/
def includesFrom (needle : List Char) : List Char → Bool
  | [] => listBeginsWith needle []
  | c :: rest => listBeginsWith needle (c :: rest) || includesFrom needle rest

/-- JavaScript `hay.includes(needle)`. -/
def strIncludes (hay needle : String) : Bool :=
  includesFrom needle.toList hay.toList

/-- getLocalTenantTip.  The source pushes at most one tip per call onto an
array and returns `tips[0]` or `null`; each branch pushes exactly one, so
the function reduces to this case split. -/
def getLocalTenantTip (occupation cityProvince : String) : Option TenantTip :=
  let city := jsToLower cityProvince
  let occ := jsToLower occupation
  if occ = "student" then
    if strIncludes city "ottawa" then some tipStudentOttawa
    else if strIncludes city "toronto" || strIncludes city "ontario" then some tipStudentOntario
    else if strIncludes city "montreal" || strIncludes city "quebec" then some tipStudentQuebec
    else some tipStudentGeneric
  else if strIncludes city "ottawa" then some tipOttawa
  else if strIncludes city "ontario" then some tipOntario
  else none

/-! Concrete storage states and values used to evaluate the functions on
closed inputs. -/

/-- Empty writable storage. -/
def emptyStore : Store := { data := fun _ => none, canWrite := true }

/-- A sample quiz-answer object. -/
def samplePlan : JVal := JVal.jobj [("moveOutDate", JVal.jstr "2026-03-01")]

/-- A session record as login/register writes it, reduced to the fields
that matter for key suffixes. -/
def sessRecord (e : String) : JVal :=
  JVal.jobj [("email", JVal.jstr e), ("isLoggedIn", JVal.jbool true)]

/-- Storage holding only a standalone quiz record (no session, so the
suffix is empty). -/
def quizOnlyStore : Store :=
  emptyStore.setCell STORAGE_QUIZ (some (Cell.json samplePlan))

/-- Storage after `saveAppState({exitPlanData: samplePlan})` on empty
storage. -/
def c1After : Store :=
  (saveAppState (JVal.jobj [("exitPlanData", samplePlan)]) emptyStore).2

/-- Storage whose combined record carries a plan but an explicit false
`isPlanGenerated` — exactly what `saveAppState({exitPlanData: X})` itself
persists. -/
def c2Store : Store :=
  emptyStore.setCell STORAGE_APP_STATE (some (Cell.json (JVal.jobj
    [("isPlanGenerated", JVal.jbool false),
     ("exitPlanData", samplePlan),
     ("completedTasks", JVal.jobj [])])))

/-- Storage with a session for the email `a!@b.c`. -/
def c3StoreA : Store :=
  emptyStore.setCell STORAGE_CURRENT (some (Cell.json (sessRecord "a!@b.c")))

/-- `c3StoreA` after a write of a quiz plan while `a!@b.c` is active. -/
def c3Written : Store :=
  (saveAppState (JVal.jobj [("exitPlanData", samplePlan)]) c3StoreA).2

/-- Switch the active session to the email `a#@b.c` (as a login by that
user would). -/
def switchToB (s : Store) : Store :=
  s.setCell STORAGE_CURRENT (some (Cell.json (sessRecord "a#@b.c")))

/-- Storage with a malformed combined record next to a readable quiz
record. -/
def c7Store : Store :=
  (emptyStore.setCell STORAGE_APP_STATE (some Cell.malformed)).setCell
    STORAGE_QUIZ (some (Cell.json samplePlan))

/-- `c7Store` with the malformed combined cell removed instead. -/
def c7StoreAbsent : Store := c7Store.setCell STORAGE_APP_STATE none

/-- Unwritable storage whose three state cells are all malformed. -/
def c7WitnessStore : Store :=
  { data := fun k =>
      if k = STORAGE_APP_STATE then some Cell.malformed
      else if k = STORAGE_QUIZ then some Cell.malformed
      else if k = STORAGE_TASKS then some Cell.malformed
      else none,
    canWrite := false }

/-- Storage whose session is logged in but has an empty email. -/
def c8Store : Store :=
  emptyStore.setCell STORAGE_CURRENT (some (Cell.json (JVal.jobj
    [("email", JVal.jstr ""), ("isLoggedIn", JVal.jbool true)])))

/-- Storage with an ordinary logged-in session. -/
def c8WitnessStore : Store :=
  emptyStore.setCell STORAGE_CURRENT (some (Cell.json (sessRecord "a@b.c")))

/-- A stored user record for the directory fixtures. -/
def userRec (e pw : String) : JVal :=
  JVal.jobj [("email", JVal.jstr e), ("password", JVal.jstr pw),
    ("name", JVal.jstr "User"), ("phone", JVal.jstr ""),
    ("address", JVal.jstr ""), ("occupation", JVal.jstr ""),
    ("registeredAt", JVal.jstr "2026-01-01")]

/-- Storage with two registered users, `c@d.ee` logged in. -/
def c5Store : Store :=
  { data := fun k =>
      if k = STORAGE_USERS then some (Cell.json (JVal.jobj
        [("a@b.c", userRec "a@b.c" "password1"),
         ("c@d.ee", userRec "c@d.ee" "password2")]))
      else if k = STORAGE_CURRENT then some (Cell.json (JVal.jobj
        [("email", JVal.jstr "c@d.ee"), ("name", JVal.jstr "User"),
         ("phone", JVal.jstr ""), ("address", JVal.jstr ""),
         ("occupation", JVal.jstr ""), ("isLoggedIn", JVal.jbool true)]))
      else none,
    canWrite := true }

/-- The record register persists (before any profile update). -/
def registerRecord (email password name phone address occupation now : String) : JVal :=
  JVal.jobj
    [("email", JVal.jstr (normalizeEmail email)),
     ("password", JVal.jstr password),
     ("name", JVal.jstr (jsOrS (jsTrim (jsOrS name "User")) "User")),
     ("phone", JVal.jstr (jsTrim phone)),
     ("address", JVal.jstr (jsTrim address)),
     ("occupation", JVal.jstr (jsTrim occupation)),
     ("registeredAt", JVal.jstr now)]

/-- The session record register writes on success (auto-login). -/
def registerSession (email name phone address occupation : String) : JVal :=
  JVal.jobj
    [("email", JVal.jstr (normalizeEmail email)),
     ("name", JVal.jstr (jsOrS (jsTrim (jsOrS name "User")) "User")),
     ("phone", JVal.jstr (jsTrim phone)),
     ("address", JVal.jstr (jsTrim address)),
     ("occupation", JVal.jstr (jsTrim occupation)),
     ("isLoggedIn", JVal.jbool true)]

/-- The storage a successful register call leaves behind, when the parsed
directory was the object with fields `fs` and the normalized email was not
among its keys. -/
def registerResultStore (email password name phone address occupation now : String)
    (st : Store) (fs : List (String × JVal)) : Store :=
  (st.setCell STORAGE_USERS (some (Cell.json (JVal.jobj (fs ++
      [(normalizeEmail email,
        registerRecord email password name phone address occupation now)]))))).setCell
    STORAGE_CURRENT
    (some (Cell.json (registerSession email name phone address occupation)))

/-! Helper lemmas. -/

/-- Two appends differ when the base strings differ within their first 13
characters (all five storage base names do). -/
theorem key_ne (p q x y : String) (hp : 13 ≤ p.data.length) (hq : 13 ≤ q.data.length)
    (hne : p.data.take 13 ≠ q.data.take 13) : p ++ x ≠ q ++ y := by
  intro h
  apply hne
  have h2 := congrArg String.data h
  rw [String.data_append, String.data_append] at h2
  have h3 := congrArg (List.take 13) h2
  rwa [List.take_append_of_le_length hp, List.take_append_of_le_length hq] at h3

/-- Appending to the same base is injective in the suffix. -/
theorem append_left_inj (p x y : String) (hx : p ++ x = p ++ y) : x = y := by
  have h2 := congrArg String.data hx
  rw [String.data_append, String.data_append] at h2
  exact String.ext (List.append_cancel_left h2)

/-- The session key differs from every suffixed quiz key. -/
theorem cur_ne_quiz (s : String) : STORAGE_CURRENT ≠ STORAGE_QUIZ ++ s := by
  have h := key_ne STORAGE_CURRENT STORAGE_QUIZ "" s (by decide) (by decide) (by decide)
  simpa using h

/-- The session key differs from every suffixed task key. -/
theorem cur_ne_tasks (s : String) : STORAGE_CURRENT ≠ STORAGE_TASKS ++ s := by
  have h := key_ne STORAGE_CURRENT STORAGE_TASKS "" s (by decide) (by decide) (by decide)
  simpa using h

/-- The session key differs from every suffixed combined-state key. -/
theorem cur_ne_app (s : String) : STORAGE_CURRENT ≠ STORAGE_APP_STATE ++ s := by
  have h := key_ne STORAGE_CURRENT STORAGE_APP_STATE "" s (by decide) (by decide) (by decide)
  simpa using h

/-- Quiz keys and task keys never collide, whatever the suffixes. -/
theorem quiz_ne_tasks (s t : String) : STORAGE_QUIZ ++ s ≠ STORAGE_TASKS ++ t :=
  key_ne _ _ _ _ (by decide) (by decide) (by decide)

/-- Quiz keys and combined-state keys never collide. -/
theorem quiz_ne_app (s t : String) : STORAGE_QUIZ ++ s ≠ STORAGE_APP_STATE ++ t :=
  key_ne _ _ _ _ (by decide) (by decide) (by decide)

/-- Task keys and combined-state keys never collide. -/
theorem tasks_ne_app (s t : String) : STORAGE_TASKS ++ s ≠ STORAGE_APP_STATE ++ t :=
  key_ne _ _ _ _ (by decide) (by decide) (by decide)

/-- Reading a cell after setCell. -/
theorem setCell_data (st : Store) (k : String) (c : Option Cell) (k2 : String) :
    (st.setCell k c).data k2 = if k2 = k then c else st.data k2 := rfl

/-- getStorageSuffix reads only the session cell. -/
theorem getStorageSuffix_congr {st1 st2 : Store}
    (h : st1.data STORAGE_CURRENT = st2.data STORAGE_CURRENT) :
    getStorageSuffix st1 = getStorageSuffix st2 := by
  unfold getStorageSuffix Store.getItem
  rw [h]

/-- getExitPlanData reads only the session cell and the suffixed quiz
cell. -/
theorem getExitPlanData_congr {st1 st2 : Store}
    (hc : st1.data STORAGE_CURRENT = st2.data STORAGE_CURRENT)
    (hq : st1.data (STORAGE_QUIZ ++ getStorageSuffix st1)
        = st2.data (STORAGE_QUIZ ++ getStorageSuffix st1)) :
    getExitPlanData st1 = getExitPlanData st2 := by
  have hs := getStorageSuffix_congr hc
  unfold getExitPlanData Store.getItem
  rw [← hs, hq]

/-- getTasks reads only the session cell and the suffixed task cell. -/
theorem getTasks_congr {st1 st2 : Store}
    (hc : st1.data STORAGE_CURRENT = st2.data STORAGE_CURRENT)
    (ht : st1.data (STORAGE_TASKS ++ getStorageSuffix st1)
        = st2.data (STORAGE_TASKS ++ getStorageSuffix st1)) :
    getTasks st1 = getTasks st2 := by
  have hs := getStorageSuffix_congr hc
  unfold getTasks Store.getItem
  rw [← hs, ht]

/-- getAppState reads only the session cell and the three suffixed state
cells. -/
theorem getAppState_congr {st1 st2 : Store}
    (hc : st1.data STORAGE_CURRENT = st2.data STORAGE_CURRENT)
    (hq : st1.data (STORAGE_QUIZ ++ getStorageSuffix st1)
        = st2.data (STORAGE_QUIZ ++ getStorageSuffix st1))
    (ht : st1.data (STORAGE_TASKS ++ getStorageSuffix st1)
        = st2.data (STORAGE_TASKS ++ getStorageSuffix st1))
    (ha : st1.data (STORAGE_APP_STATE ++ getStorageSuffix st1)
        = st2.data (STORAGE_APP_STATE ++ getStorageSuffix st1)) :
    getAppState st1 = getAppState st2 := by
  have hs := getStorageSuffix_congr hc
  unfold getAppState Store.getItem
  rw [getExitPlanData_congr hc hq, getTasks_congr hc ht, ← hs, ha]

/-- saveAppState writes only the three suffixed state cells (and keeps
the write flag). -/
theorem saveAppState_frame (upd : JVal) (st : Store) (k : String)
    (h1 : k ≠ STORAGE_QUIZ ++ getStorageSuffix st)
    (h2 : k ≠ STORAGE_TASKS ++ getStorageSuffix st)
    (h3 : k ≠ STORAGE_APP_STATE ++ getStorageSuffix st) :
    ((saveAppState upd st).2).data k = st.data k
      ∧ ((saveAppState upd st).2).canWrite = st.canWrite := by
  unfold saveAppState
  rcases hepd : (JVal.jobj (spreadFields (getAppState st) ++ spreadFields upd)).get? "exitPlanData" with _ | v
  all_goals try cases v
  all_goals rcases hct : (JVal.jobj (spreadFields (getAppState st) ++ spreadFields upd)).get? "completedTasks" with _ | w
  all_goals try cases w
  all_goals cases hw : st.canWrite
  all_goals simp [hepd, hct, Store.setItem, hw, h1, h2, h3]

/-- When the merged state's exit-plan field is null, saveAppState leaves
even the suffixed quiz cell alone: only the task and combined cells are
written. -/
theorem saveAppState_frame_nullPlan (upd : JVal) (st : Store) (k : String)
    (hepd : (JVal.jobj (spreadFields (getAppState st) ++ spreadFields upd)).get? "exitPlanData"
            = some JVal.jnull)
    (h2 : k ≠ STORAGE_TASKS ++ getStorageSuffix st)
    (h3 : k ≠ STORAGE_APP_STATE ++ getStorageSuffix st) :
    ((saveAppState upd st).2).data k = st.data k := by
  unfold saveAppState
  rcases hct : (JVal.jobj (spreadFields (getAppState st) ++ spreadFields upd)).get? "completedTasks" with _ | w
  all_goals try cases w
  all_goals cases hw : st.canWrite
  all_goals simp [hepd, hct, Store.setItem, hw, h2, h3]

/-- No entry of `fs` has key `k` when last-match lookup fails. -/
theorem any_eq_false_of_lastMatch_none (k : String) (fs : List (String × JVal))
    (h : lastMatch k fs = none) : fs.any (fun p => p.1 == k) = false := by
  induction fs with
  | nil => rfl
  | cons p rest ih =>
    unfold lastMatch at h
    rcases hr : lastMatch k rest with _ | r
    · rw [hr] at h
      split at h
      · cases h
      · simp [List.any_cons, ih hr]
        intro hx
        simp_all
    · rw [hr] at h
      cases h

/-- Last-match lookup finds an entry appended at the end. -/
theorem lastMatch_append_self (k : String) (x : JVal) (fs : List (String × JVal)) :
    lastMatch k (fs ++ [(k, x)]) = some x := by
  induction fs with
  | nil => simp [lastMatch]
  | cons p rest ih =>
    rw [List.cons_append]
    unfold lastMatch
    rw [ih]

/-- Register on a sane directory without the key, with valid inputs and a
writable store, returns success and leaves exactly `registerResultStore`. -/
theorem register_ok_eq
    (email password name phone address occupation now : String) (st : Store)
    (fs : List (String × JVal))
    (hu : getUsers st = JVal.jobj fs)
    (hw : st.canWrite = true)
    (hk : lastMatch (normalizeEmail email) fs = none)
    (he : isValidEmail email = true)
    (hpw : isValidPassword password = true)
    (hvp : isValidPhone phone = true) :
    register email password name phone address occupation now st
      = some (JResult.ok,
          registerResultStore email password name phone address occupation now st fs) := by
  have hany := any_eq_false_of_lastMatch_none _ _ hk
  unfold register
  rw [hu]
  simp only [jsIndex, JVal.get?, hk, truthyO, he, hpw, hvp, jsSet, hany,
    Bool.not_true, Bool.false_eq_true, if_false, Bool.if_false_left]
  simp only [Store.setItem, hw, if_true, if_pos]
  simp only [lastMatch_append_self]
  unfold registerResultStore registerSession Store.setCell
  rw [hw]
  rfl

/-! Claim theorems. -/

/-- C1: evaluation at the failing input.  On empty storage,
`saveAppState({exitPlanData: X})` succeeds and a subsequent getAppState
returns `exitPlanData = X` — but `isPlanGenerated = false`, not `true` as
the claim states: the trailing `...state` spread in getAppState lets the
persisted `isPlanGenerated: false` override the computed reconciliation,
defeating the `!!state.isPlanGenerated || !!exitPlan` on the line above
it. -/
theorem c1_saveThenRead_eval :
  (saveAppState (JVal.jobj [("exitPlanData", samplePlan)]) emptyStore).1 = true ∧
  (getAppState c1After).get? "exitPlanData" = some samplePlan ∧
  (getAppState c1After).get? "isPlanGenerated" = some (JVal.jbool false) :=
  ⟨rfl, rfl, rfl⟩

/-- C2: counterexample.  A stored combined record with a non-null
`exitPlanData` and an explicit `isPlanGenerated: false` (exactly what
saveAppState itself persists after a quiz-only update) makes getAppState
return a state with the plan present but `isPlanGenerated = false`,
violating the claimed invariant. -/
theorem c2_counterexample :
  (getAppState c2Store).get? "exitPlanData" = some samplePlan ∧
  samplePlan ≠ JVal.jnull ∧
  (getAppState c2Store).get? "isPlanGenerated" = some (JVal.jbool false) :=
  ⟨rfl, fun h => Bool.noConfusion (congrArg JVal.truthy h), rfl⟩

/-- C2 (amended): the invariant — `isPlanGenerated` is true whenever the
returned `exitPlanData` is non-null — holds for every storage state in
which the combined app-state cell is absent or unparsable; a stored
combined record's own fields override the reconciliation and can break
it. -/
theorem c2_amended (st : Store)
    (hc : st.getItem (STORAGE_APP_STATE ++ getStorageSuffix st) = none
        ∨ st.getItem (STORAGE_APP_STATE ++ getStorageSuffix st) = some Cell.malformed)
    (v : JVal)
    (hv : (getAppState st).get? "exitPlanData" = some v)
    (hnn : v ≠ JVal.jnull) :
    (getAppState st).get? "isPlanGenerated" = some (JVal.jbool true) := by
  unfold getAppState at hv ⊢
  rcases hc with hc | hc <;> rw [hc] at hv ⊢
  · rcases ht : (getExitPlanData st).truthy with _ | _
    · exfalso
      apply hnn
      simp [buildAppState, JVal.get?, lastMatch, spreadFields, jsOr, ht, truthyO] at hv
      exact hv.symm
    · simp [buildAppState, JVal.get?, lastMatch, spreadFields, jsOr, ht, truthyO]
  · exfalso
    apply hnn
    simp [buildAppState, defaultAppState, JVal.get?, lastMatch] at hv
    exact hv.symm

/-- C2 witness: a storage state holding only a standalone quiz record
satisfies the amended invariant with `isPlanGenerated = true`. -/
theorem c2_witness :
  (getAppState quizOnlyStore).get? "isPlanGenerated" = some (JVal.jbool true) :=
  c2_amended quizOnlyStore (Or.inl rfl) samplePlan rfl
    (fun h => Bool.noConfusion (congrArg JVal.truthy h))

/-- C3: counterexample.  The sessions for `a!@b.c` and `a#@b.c` have
different emails but the same sanitized suffix, so a plan written while
the first is active is visible to a read under the second (third line:
without the write that read would see null). -/
theorem c3_counterexample :
  ("a!@b.c" : String) ≠ "a#@b.c" ∧
  (getAppState (switchToB c3Written)).get? "exitPlanData" = some samplePlan ∧
  (getAppState (switchToB c3StoreA)).get? "exitPlanData" = some JVal.jnull :=
  ⟨by decide, rfl, rfl⟩

/-- C3 (amended): app-state written while one session is active is
invisible to reads under another session whenever the two sessions derive
different storage suffixes (distinct emails alone are not enough: the
sanitization can collapse them). -/
theorem c3_isolation (upd : JVal) (st : Store) (c : Option Cell)
    (h : getStorageSuffix (st.setCell STORAGE_CURRENT c) ≠ getStorageSuffix st) :
    getAppState (((saveAppState upd st).2).setCell STORAGE_CURRENT c)
      = getAppState (st.setCell STORAGE_CURRENT c) := by
  have hcur : (((saveAppState upd st).2).setCell STORAGE_CURRENT c).data STORAGE_CURRENT
      = (st.setCell STORAGE_CURRENT c).data STORAGE_CURRENT := by
    rw [setCell_data, setCell_data, if_pos rfl, if_pos rfl]
  have hs := getStorageSuffix_congr hcur
  have hq : STORAGE_QUIZ ++ getStorageSuffix (st.setCell STORAGE_CURRENT c)
      ≠ STORAGE_QUIZ ++ getStorageSuffix st :=
    fun hx => h (append_left_inj _ _ _ hx)
  have ht : STORAGE_TASKS ++ getStorageSuffix (st.setCell STORAGE_CURRENT c)
      ≠ STORAGE_TASKS ++ getStorageSuffix st :=
    fun hx => h (append_left_inj _ _ _ hx)
  have ha : STORAGE_APP_STATE ++ getStorageSuffix (st.setCell STORAGE_CURRENT c)
      ≠ STORAGE_APP_STATE ++ getStorageSuffix st :=
    fun hx => h (append_left_inj _ _ _ hx)
  apply getAppState_congr hcur
  · rw [hs, setCell_data, setCell_data,
      if_neg (Ne.symm (cur_ne_quiz _)), if_neg (Ne.symm (cur_ne_quiz _))]
    exact (saveAppState_frame upd st _ hq (quiz_ne_tasks _ _) (quiz_ne_app _ _)).1
  · rw [hs, setCell_data, setCell_data,
      if_neg (Ne.symm (cur_ne_tasks _)), if_neg (Ne.symm (cur_ne_tasks _))]
    exact (saveAppState_frame upd st _ (Ne.symm (quiz_ne_tasks _ _)) ht (tasks_ne_app _ _)).1
  · rw [hs, setCell_data, setCell_data,
      if_neg (Ne.symm (cur_ne_app _)), if_neg (Ne.symm (cur_ne_app _))]
    exact (saveAppState_frame upd st _ (Ne.symm (quiz_ne_app _ _))
      (Ne.symm (tasks_ne_app _ _)) ha).1

/-- C3 witness: a write under the `a!@b.c` session is invisible to a read
under a session whose suffix differs (`xx@y.zz`). -/
theorem c3_witness :
  getAppState (((saveAppState (JVal.jobj [("exitPlanData", samplePlan)]) c3StoreA).2).setCell
      STORAGE_CURRENT (some (Cell.json (sessRecord "xx@y.zz"))))
    = getAppState (c3StoreA.setCell STORAGE_CURRENT (some (Cell.json (sessRecord "xx@y.zz")))) :=
  c3_isolation (JVal.jobj [("exitPlanData", samplePlan)]) c3StoreA
    (some (Cell.json (sessRecord "xx@y.zz"))) (by decide)

/-- C4: with a pattern-valid email, a password of at least 8 characters,
a phone that is empty or carries 10–15 digits, a parseable directory with
no record under the normalized email, and a writable store, register
succeeds, persists the new record (with its `registeredAt` timestamp)
under the lowercased trimmed key, and getCurrentUser then returns a
logged-in session for that email. -/
theorem c4_register_success
    (email password name phone address occupation now : String) (st : Store)
    (fs : List (String × JVal))
    (hu : getUsers st = JVal.jobj fs)
    (hw : st.canWrite = true)
    (hk : lastMatch (normalizeEmail email) fs = none)
    (he : isValidEmail email = true)
    (hp : 8 ≤ password.toList.length)
    (hph : phone = "" ∨ (10 ≤ countDigits phone ∧ countDigits phone ≤ 15)) :
    ∃ st2,
      register email password name phone address occupation now st
        = some (JResult.ok, st2) ∧
      (getUsers st2).get? (normalizeEmail email)
        = some (registerRecord email password name phone address occupation now) ∧
      ∃ u, getCurrentUser st2 = some u ∧
        u.get? "email" = some (JVal.jstr (normalizeEmail email)) ∧
        u.get? "isLoggedIn" = some (JVal.jbool true) := by
  have hpw : isValidPassword password = true := by
    have hne : password ≠ "" := by
      intro hcon
      rw [hcon] at hp
      simp at hp
    have hp2 : 8 ≤ password.length := hp
    simp [isValidPassword, hne, hp, hp2]
  have hvp : isValidPhone phone = true := by
    rcases hph with h0 | ⟨hlo, hhi⟩
    · rw [h0]; rfl
    · unfold isValidPhone
      split
      · rfl
      · simp [hlo, hhi]
  refine ⟨registerResultStore email password name phone address occupation now st fs,
    register_ok_eq email password name phone address occupation now st fs hu hw hk he hpw hvp,
    ?_, registerSession email name phone address occupation, ?_, rfl, rfl⟩
  · unfold registerResultStore getUsers Store.getItem
    rw [setCell_data, if_neg (show STORAGE_USERS ≠ STORAGE_CURRENT by decide),
      setCell_data, if_pos rfl]
    simp [JVal.get?, lastMatch_append_self]
  · unfold registerResultStore getCurrentUser Store.getItem
    rw [setCell_data, if_pos rfl]
    rfl

/-- C4 witness: registering `user@test.com` on empty storage succeeds,
persists the record, and logs the session in. -/
theorem c4_witness :
  ∃ st2,
    register "user@test.com" "password1" "Al" "" "" "student" "2026-01-01" emptyStore
      = some (JResult.ok, st2) ∧
    (getUsers st2).get? (normalizeEmail "user@test.com")
      = some (registerRecord "user@test.com" "password1" "Al" "" "" "student" "2026-01-01") ∧
    ∃ u, getCurrentUser st2 = some u ∧
      u.get? "email" = some (JVal.jstr (normalizeEmail "user@test.com")) ∧
      u.get? "isLoggedIn" = some (JVal.jbool true) :=
  c4_register_success "user@test.com" "password1" "Al" "" "" "student" "2026-01-01"
    emptyStore [] rfl rfl rfl rfl (by decide) (Or.inl rfl)

/-- C5: when a logged-in user's profile update renames to an email whose
normalized form a truthy directory record already owns (and which passes
validation), updateUserProfile returns the email-taken error before any
write: the storage — and with it every record of the user directory — is
returned unchanged. -/
theorem c5_email_taken (upd : ProfileUpdates) (st : Store) (u : JVal)
    (curEmail newRaw : String) (v : JVal)
    (hcu : getCurrentUser st = some u)
    (hemail : u.get? "email" = some (JVal.jstr curEmail))
    (hupd : upd.email = some newRaw)
    (hnz : newRaw ≠ "")
    (hne : normalizeEmail newRaw ≠ normalizeEmail curEmail)
    (hval : isValidEmail (normalizeEmail newRaw) = true)
    (htaken : jsIndex (getUsers st) (normalizeEmail newRaw) = some (some v))
    (hv : v.truthy = true) :
    updateUserProfile upd st
      = some (JResult.err "This email is already taken by another account.", st) := by
  unfold updateUserProfile
  rw [hcu]
  dsimp only
  rw [hemail]
  dsimp only
  rw [hupd]
  simp only [jsOrS, hnz, bne_iff_ne, ne_eq, not_false_eq_true, if_true, if_pos]
  rw [if_pos hne, if_neg (by rw [hval]; simp), htaken]
  simp [truthyO, hv]

/-- C5 witness: with `a@b.c` and `c@d.ee` registered and `c@d.ee` logged
in, renaming to `a@b.c` fails with the email-taken error and the storage
is unchanged. -/
theorem c5_witness :
  updateUserProfile { email := some "a@b.c" } c5Store
    = some (JResult.err "This email is already taken by another account.", c5Store) :=
  c5_email_taken { email := some "a@b.c" } c5Store
    (JVal.jobj [("email", JVal.jstr "c@d.ee"), ("name", JVal.jstr "User"),
      ("phone", JVal.jstr ""), ("address", JVal.jstr ""),
      ("occupation", JVal.jstr ""), ("isLoggedIn", JVal.jbool true)])
    "c@d.ee" "a@b.c" (userRec "a@b.c" "password1")
    rfl rfl rfl (by decide) (by decide) rfl rfl rfl

/-- C6: after a successful registration, a second register call whose
email normalizes to the same key (the normalization lowercases and trims,
so any casing or leading/trailing-whitespace variant qualifies) fails
with the duplicate-email error whatever its other arguments, and the
storage is unchanged. -/
theorem c6_duplicate
    (email password name phone address occupation now : String)
    (email2 password2 name2 phone2 address2 occupation2 now2 : String)
    (st : Store) (fs : List (String × JVal))
    (hu : getUsers st = JVal.jobj fs)
    (hw : st.canWrite = true)
    (hk : lastMatch (normalizeEmail email) fs = none)
    (he : isValidEmail email = true)
    (hpw : isValidPassword password = true)
    (hvp : isValidPhone phone = true)
    (hnorm : normalizeEmail email2 = normalizeEmail email) :
    ∀ st1, register email password name phone address occupation now st
        = some (JResult.ok, st1) →
      register email2 password2 name2 phone2 address2 occupation2 now2 st1
        = some (JResult.err "An account with this email already exists.", st1) := by
  intro st1 hreg
  have heq := register_ok_eq email password name phone address occupation now st fs
    hu hw hk he hpw hvp
  rw [hreg] at heq
  have hst : st1 = registerResultStore email password name phone address occupation now st fs := by
    simpa using heq
  subst hst
  have hu1 : getUsers (registerResultStore email password name phone address occupation now st fs)
      = JVal.jobj (fs ++
          [(normalizeEmail email,
            registerRecord email password name phone address occupation now)]) := by
    unfold registerResultStore getUsers Store.getItem
    rw [setCell_data, if_neg (show STORAGE_USERS ≠ STORAGE_CURRENT by decide),
      setCell_data, if_pos rfl]
  unfold register
  rw [hu1, hnorm]
  simp [jsIndex, JVal.get?, lastMatch_append_self, truthyO, JVal.truthy, registerRecord]

/-- C6 witness: after registering `user@test.com`, registering
`"  USER@Test.com "` (same email up to case and surrounding whitespace)
with a different password fails with the duplicate-email error. -/
theorem c6_witness :
  register "  USER@Test.com " "otherpass9" "Bea" "" "" "" "t2"
      (registerResultStore "user@test.com" "password1" "Al" "" "" "" "t1" emptyStore [])
    = some (JResult.err "An account with this email already exists.",
        registerResultStore "user@test.com" "password1" "Al" "" "" "" "t1" emptyStore []) :=
  c6_duplicate "user@test.com" "password1" "Al" "" "" "" "t1"
    "  USER@Test.com " "otherpass9" "Bea" "" "" "" "t2" emptyStore []
    rfl rfl rfl rfl (by decide) rfl (by decide)
    (registerResultStore "user@test.com" "password1" "Al" "" "" "" "t1" emptyStore []) rfl

/-- C7: counterexample.  With the combined cell malformed and the quiz
cell readable, getAppState returns the full default state; removing the
malformed cell instead (i.e. treating it as contributing only its own
default) would surface the readable quiz record — so a parse failure on
the combined key does not merely yield that key's default, it suppresses
the other keys' readable data as well. -/
theorem c7_counterexample :
  getAppState c7Store = defaultAppState ∧
  (getAppState c7StoreAbsent).get? "exitPlanData" = some samplePlan ∧
  (getAppState c7StoreAbsent).get? "isPlanGenerated" = some (JVal.jbool true) :=
  ⟨rfl, rfl, rfl⟩

/-- C7 (amended): the read path never fails — a malformed combined cell
yields the full default state, a malformed quiz or task cell behaves
exactly like an absent one — and saveAppState returns false instead of
throwing when the underlying storage write fails. -/
theorem c7_amended (st : Store) (upd : JVal) :
    (st.getItem (STORAGE_APP_STATE ++ getStorageSuffix st) = some Cell.malformed →
       getAppState st = defaultAppState) ∧
    (st.getItem (STORAGE_QUIZ ++ getStorageSuffix st) = some Cell.malformed →
       getAppState st
         = getAppState (st.setCell (STORAGE_QUIZ ++ getStorageSuffix st) none)) ∧
    (st.getItem (STORAGE_TASKS ++ getStorageSuffix st) = some Cell.malformed →
       getAppState st
         = getAppState (st.setCell (STORAGE_TASKS ++ getStorageSuffix st) none)) ∧
    (st.canWrite = false → saveAppState upd st = (false, st)) := by
  refine ⟨?_, ?_, ?_, ?_⟩
  · intro h
    unfold getAppState
    rw [h]
    rfl
  · intro h
    have hcur : (st.setCell (STORAGE_QUIZ ++ getStorageSuffix st) none).data STORAGE_CURRENT
        = st.data STORAGE_CURRENT := by
      rw [setCell_data]
      exact if_neg (cur_ne_quiz _)
    have hs := getStorageSuffix_congr hcur
    have hE1 : getExitPlanData st = JVal.jnull := by
      unfold getExitPlanData
      rw [h]
    have hE2 : getExitPlanData (st.setCell (STORAGE_QUIZ ++ getStorageSuffix st) none)
        = JVal.jnull := by
      unfold getExitPlanData Store.getItem
      rw [hs, setCell_data, if_pos rfl]
    have hTut : getTasks (st.setCell (STORAGE_QUIZ ++ getStorageSuffix st) none)
        = getTasks st := by
      apply getTasks_congr hcur
      rw [hs, setCell_data]
      exact if_neg (Ne.symm (quiz_ne_tasks _ _))
    unfold getAppState Store.getItem
    rw [hs, hE1, hE2, hTut, setCell_data, if_neg (Ne.symm (quiz_ne_app _ _))]
  · intro h
    have hcur : (st.setCell (STORAGE_TASKS ++ getStorageSuffix st) none).data STORAGE_CURRENT
        = st.data STORAGE_CURRENT := by
      rw [setCell_data]
      exact if_neg (cur_ne_tasks _)
    have hs := getStorageSuffix_congr hcur
    have hT1 : getTasks st = JVal.jobj [] := by
      unfold getTasks
      rw [h]
    have hT2 : getTasks (st.setCell (STORAGE_TASKS ++ getStorageSuffix st) none)
        = JVal.jobj [] := by
      unfold getTasks Store.getItem
      rw [hs, setCell_data, if_pos rfl]
    have hEut : getExitPlanData (st.setCell (STORAGE_TASKS ++ getStorageSuffix st) none)
        = getExitPlanData st := by
      apply getExitPlanData_congr hcur
      rw [hs, setCell_data]
      exact if_neg (quiz_ne_tasks _ _)
    unfold getAppState Store.getItem
    rw [hs, hT1, hT2, hEut, setCell_data, if_neg (Ne.symm (tasks_ne_app _ _))]
  · intro h
    unfold saveAppState
    rcases hepd : (JVal.jobj (spreadFields (getAppState st) ++ spreadFields upd)).get? "exitPlanData" with _ | v
    all_goals try cases v
    all_goals rcases hct : (JVal.jobj (spreadFields (getAppState st) ++ spreadFields upd)).get? "completedTasks" with _ | w
    all_goals try cases w
    all_goals simp [hepd, hct, Store.setItem, h]

/-- C7 witness: on an unwritable store whose three state cells are all
malformed, the read returns the defaults (malformed quiz and task cells
acting as absent) and the write returns false with the store untouched. -/
theorem c7_witness :
  getAppState c7WitnessStore = defaultAppState ∧
  getAppState c7WitnessStore
    = getAppState (c7WitnessStore.setCell (STORAGE_QUIZ ++ getStorageSuffix c7WitnessStore) none) ∧
  getAppState c7WitnessStore
    = getAppState (c7WitnessStore.setCell (STORAGE_TASKS ++ getStorageSuffix c7WitnessStore) none) ∧
  saveAppState (JVal.jobj []) c7WitnessStore = (false, c7WitnessStore) := by
  have h := c7_amended c7WitnessStore (JVal.jobj [])
  exact ⟨h.1 rfl, h.2.1 rfl, h.2.2.1 rfl, h.2.2.2 rfl⟩

/-- C8: counterexample.  A stored session that is logged in but has an
empty (falsy) email is a current session for getCurrentUser, yet
getStorageSuffix returns the empty string rather than the claimed
underscore-prefixed sanitized email. -/
theorem c8_counterexample :
  getCurrentUser c8Store
    = some (JVal.jobj [("email", JVal.jstr ""), ("isLoggedIn", JVal.jbool true)]) ∧
  getStorageSuffix c8Store = "" ∧
  ("" : String) ≠ "_" ++ sanitizeEmail "" :=
  ⟨rfl, rfl, by decide⟩

/-- C8 (amended): getStorageSuffix returns the empty string when there is
no current logged-in session, and also when the session's email is absent
or falsy; when the email is truthy it returns an underscore followed by
the email (as a string) with every character outside `[A-Za-z0-9@._-]`
replaced by an underscore. -/
theorem c8_amended (st : Store) :
    (getCurrentUser st = none → getStorageSuffix st = "") ∧
    (∀ u, getCurrentUser st = some u →
      (truthyO (u.get? "email") = false → getStorageSuffix st = "") ∧
      (truthyO (u.get? "email") = true →
        getStorageSuffix st
          = "_" ++ sanitizeEmail (jsToString ((u.get? "email").getD JVal.jnull)))) := by
  unfold getCurrentUser getStorageSuffix Store.getItem
  rcases hcell : st.data STORAGE_CURRENT with _ | c
  · constructor
    · intro _
      simp [JVal.truthy]
    · intro u hu
      simp [JVal.truthy] at hu
  · cases c with
    | malformed =>
      constructor
      · intro _; rfl
      · intro u hu; cases hu
    | json j =>
      dsimp only
      cases h1 : (j.truthy && truthyO (j.get? "isLoggedIn")) with
      | false =>
        constructor
        · intro _
          simp [h1]
        · intro u hu
          simp [h1] at hu
      | true =>
        constructor
        · intro hu
          simp [h1] at hu
        · intro u hu
          simp [h1] at hu
          subst hu
          constructor
          · intro he
            simp [h1, he]
          · intro he
            simp [h1, he]

/-- C8 witness: an ordinary logged-in session for `a@b.c` yields the
suffix built from the underscore and the sanitized email. -/
theorem c8_witness :
  getStorageSuffix c8WitnessStore
    = "_" ++ sanitizeEmail (jsToString (((sessRecord "a@b.c").get? "email").getD JVal.jnull)) :=
  ((c8_amended c8WitnessStore).2 (sessRecord "a@b.c") rfl).2 rfl

/-- C9: `getLocalTenantTip("student", "Ottawa, ON")` returns the
Ottawa-student tip object, and when the lowercased occupation is not
"student" and the lowercased city contains none of the recognized city
or province substrings, the function returns nothing. -/
theorem c9_localTips :
  getLocalTenantTip "student" "Ottawa, ON" = some tipStudentOttawa ∧
  ∀ occupation cityProvince,
    jsToLower occupation ≠ "student" →
    strIncludes (jsToLower cityProvince) "ottawa" = false →
    strIncludes (jsToLower cityProvince) "toronto" = false →
    strIncludes (jsToLower cityProvince) "ontario" = false →
    strIncludes (jsToLower cityProvince) "montreal" = false →
    strIncludes (jsToLower cityProvince) "quebec" = false →
    getLocalTenantTip occupation cityProvince = none := by
  refine ⟨rfl, ?_⟩
  intro occupation cityProvince h1 h2 h3 h4 h5 h6
  unfold getLocalTenantTip
  simp [h1, h2, h3, h4, h5, h6]

/-- C9 witness: a chef in Calgary matches no recognized case and gets no
tip. -/
theorem c9_witness : getLocalTenantTip "chef" "Calgary, AB" = none :=
  c9_localTips.2 "chef" "Calgary, AB" (by decide) rfl rfl rfl rfl rfl

/-- C10: when the merged update's exit-plan field is null, saveAppState
leaves the suffixed standalone quiz cell untouched (it deletes nothing),
so a later getExitPlanData still returns the previously stored plan. -/
theorem c10_savePreservesQuiz (upd : JVal) (st : Store)
    (hepd : (JVal.jobj (spreadFields (getAppState st) ++ spreadFields upd)).get? "exitPlanData"
            = some JVal.jnull) :
    ((saveAppState upd st).2).data (STORAGE_QUIZ ++ getStorageSuffix st)
      = st.data (STORAGE_QUIZ ++ getStorageSuffix st) ∧
    getExitPlanData ((saveAppState upd st).2) = getExitPlanData st := by
  have hq := saveAppState_frame_nullPlan upd st (STORAGE_QUIZ ++ getStorageSuffix st) hepd
    (quiz_ne_tasks _ _) (quiz_ne_app _ _)
  have hc := (saveAppState_frame upd st STORAGE_CURRENT (cur_ne_quiz _) (cur_ne_tasks _)
    (cur_ne_app _)).1
  refine ⟨hq, ?_⟩
  apply getExitPlanData_congr hc
  rw [getStorageSuffix_congr hc]
  exact hq

/-- C10 witness: saving `{exitPlanData: null}` over a store holding a
standalone quiz record leaves the quiz cell, and getExitPlanData,
unchanged. -/
theorem c10_witness :
  ((saveAppState (JVal.jobj [("exitPlanData", JVal.jnull)]) quizOnlyStore).2).data
      (STORAGE_QUIZ ++ getStorageSuffix quizOnlyStore)
    = quizOnlyStore.data (STORAGE_QUIZ ++ getStorageSuffix quizOnlyStore) ∧
  getExitPlanData ((saveAppState (JVal.jobj [("exitPlanData", JVal.jnull)]) quizOnlyStore).2)
    = getExitPlanData quizOnlyStore :=
  c10_savePreservesQuiz (JVal.jobj [("exitPlanData", JVal.jnull)]) quizOnlyStore rfl

end SilentLease
